import Mathlib

/-!
Verification of the botmaid-rs chat-platform multiplexer.

The definitions below are a shallow embedding of the repository's source:
the platform-neutral domain model from `src/lib.rs`, the Telegram long-poll
adapter from `src/api/telegram.rs`, the OneBot 11 gateway adapter from
`src/api/onebot_11.rs`, the CLI adapter from `src/api/cli.rs` and the mock
adapter from `src/api/mock.rs`.  Rust machine integers (i64) are modelled as
`Int` with explicit range checks where the source checks them, UTF-16 code
units as `Nat` below 2^16, fallible Rust code (anyhow::Result / panics that
the claims' hypotheses rule out) as `Option`.  The adapter back-reference
held by `Chat` (an `Arc<dyn BotAPI<C>>` in the source) is modelled as a value
of an arbitrary type `A` identifying the adapter instance.

Definitions whose name starts with `spec` are NOT translated from the code:
they follow the specification's own words and exist solely to be compared
with the code-derived definitions in refinement theorems.
-/

namespace Botmaid

/-- `crate::User` (lib.rs): platform-native string id plus optional nickname. -/
structure User where
  id : String
  nickname : Option String
deriving DecidableEq, Repr

/-- `User::new` (lib.rs): a user with the given id and no nickname. -/
def User.new (id : String) : User :=
  ⟨id, none⟩

/-- `User::nickname` builder (lib.rs): replace the nickname. -/
def User.withNickname (u : User) (n : String) : User :=
  ⟨u.id, some n⟩

/-- `User::get_nickname` (lib.rs): the nickname, or `""` when absent. -/
def User.getNickname (u : User) : String :=
  u.nickname.getD ""

/-- `crate::Group` (lib.rs). -/
structure Group where
  id : String
deriving DecidableEq, Repr

/-- `Group::new` (lib.rs). -/
def Group.new (id : String) : Group :=
  ⟨id⟩

/-- `crate::ChatInfo` (lib.rs): discriminated union of private and group chats. -/
inductive ChatInfo
  | Private (user : User)
  | Group (group : Group)
deriving DecidableEq, Repr

/-- `crate::Chat<C>` (lib.rs): chat info plus the shared reference to the
adapter that produced it (`api: Arc<dyn BotAPI<C>>`), modelled as a value of
an arbitrary adapter-identity type `A`. -/
structure Chat (A : Type) where
  info : ChatInfo
  api : A
deriving DecidableEq, Repr

/-- `Chat::private` (lib.rs): build a private chat owned by adapter `api`. -/
def Chat.mkPrivate {A : Type} (api : A) (user : User) : Chat A :=
  ⟨ChatInfo.Private user, api⟩

/-- `Chat::group` (lib.rs): build a group chat owned by adapter `api`. -/
def Chat.mkGroup {A : Type} (api : A) (group : Group) : Chat A :=
  ⟨ChatInfo.Group group, api⟩

/-- `crate::MessageContent` (lib.rs): one segment, text or mention. -/
inductive MessageContent
  | Text (text : String)
  | At (user : User)
deriving DecidableEq, Repr

/-- `crate::MessageContents` (lib.rs) is a growable ordered sequence of
segments; we model it as the underlying `List`.  The builder
`MessageContents::text` is `cs ++ [.Text s]` and `MessageContents::at` is
`cs ++ [.At u]`. -/
abbrev MessageContents := List MessageContent

/-- `crate::Message<C>` (lib.rs). -/
structure Message (A : Type) where
  id : String
  contents : MessageContents
  chat : Chat A
  sender : User
deriving DecidableEq, Repr

/-- `Display for MessageContent` (lib.rs lines 284-291): a text segment
renders verbatim, a mention renders as an at-sign, the nickname and a
trailing space. -/
def MessageContent.render : MessageContent → String
  | .Text t => t
  | .At u => "@" ++ u.getNickname ++ " "

/-- `Display for MessageContents` (lib.rs lines 240-248): segments render in
order with no separator. -/
def renderContents (cs : MessageContents) : String :=
  cs.foldl (fun acc c => acc ++ c.render) ""

/-- `Chat::send_msg` (lib.rs line 379) dispatches `self.api.send_msg`: the
adapter instance whose send operation a send through this chat invokes. -/
def Chat.sendTarget {A : Type} (c : Chat A) : A :=
  c.api

/-- `Message::reply` (lib.rs line 203) dispatches `self.chat.api.reply`: the
adapter instance whose send operation a reply through this message invokes. -/
def Message.replyTarget {A : Type} (m : Message A) : A :=
  m.chat.api

/-- `User::is_chat_admin` (lib.rs lines 419-428): private chats are answered
`Ok(true)` locally; group chats consult the owning adapter's
`is_group_admin`, propagating its error.  The adapter's query is passed in
as `oracle`, keyed by the adapter identity carried in the chat. -/
def isChatAdmin {A E : Type} (user : User) (chat : Chat A)
    (oracle : A → User → Group → Except E Bool) : Except E Bool :=
  match chat.info with
  | .Private _ => .ok true
  | .Group group =>
    match oracle chat.api user group with
    | .ok b => .ok b
    | .error e => .error e

/-! ## UTF-16 encoding and decoding

Rust's `str::encode_utf16` and `String::from_utf16`, used by the Telegram
adapter for entity offsets.  A code unit is a `Nat` below 2^16. -/

/-- UTF-16 encoding of one scalar value: characters below 2^16 are one code
unit, others a surrogate pair (two units). -/
def utf16EncodeChar (c : Char) : List Nat :=
  let v := c.toNat
  if v < 0x10000 then [v]
  else [0xD800 + (v - 0x10000) / 0x400, 0xDC00 + (v - 0x10000) % 0x400]

/-- `str::encode_utf16().collect()`: the code-unit sequence of a string. -/
def utf16Encode (s : String) : List Nat :=
  s.data.flatMap utf16EncodeChar

/-- `str::encode_utf16().count()`: the UTF-16 code-unit length of a string. -/
def utf16Length (s : String) : Nat :=
  (utf16Encode s).length

/-- UTF-16 decoding: a unit outside the surrogate range is a scalar, a high
surrogate must combine with the following low surrogate; any lone surrogate
(as from a slice splitting a pair) or out-of-range unit fails, exactly as
`String::from_utf16` does. -/
def utf16Decode : List Nat → Option (List Char)
  | [] => some []
  | u :: rest =>
    if u < 0xD800 ∨ (0xE000 ≤ u ∧ u < 0x10000) then
      (utf16Decode rest).map fun cs => Char.ofNat u :: cs
    else if 0xD800 ≤ u ∧ u < 0xDC00 then
      match rest with
      | [] => none
      | v :: rest2 =>
        if 0xDC00 ≤ v ∧ v < 0xE000 then
          (utf16Decode rest2).map fun cs =>
            Char.ofNat (0x10000 + (u - 0xD800) * 0x400 + (v - 0xDC00)) :: cs
        else none
    else none

/-- `String::from_utf16` on a code-unit slice. -/
def fromUtf16 (l : List Nat) : Option String :=
  (utf16Decode l).map fun cs => ⟨cs⟩

/-- The Rust slice `l[a..b]` of a code-unit buffer (the claims' hypotheses
keep every slice the source takes in range, where Rust would otherwise
panic). -/
def utf16Slice (l : List Nat) (a b : Nat) : List Nat :=
  (l.drop a).take (b - a)

/-- Rust `str::parse::<i64>`: optional sign, one or more ASCII digits,
result within the i64 range. -/
def parseI64 (s : String) : Option Int :=
  let p : Int × List Char :=
    match s.data with
    | '+' :: rest => (1, rest)
    | '-' :: rest => (-1, rest)
    | cs => (1, cs)
  if p.2 = [] then none
  else if p.2.all Char.isDigit then
    let v : Int := p.1 * ((p.2.foldl (fun acc c => acc * 10 + (c.toNat - 48)) 0 : Nat) : Int)
    if -(2 ^ 63) ≤ v ∧ v ≤ 2 ^ 63 - 1 then some v else none
  else none

/-! ## Telegram long-poll adapter (src/api/telegram.rs) -/

namespace Telegram

/-- Telegram wire `User` (telegram.rs). -/
structure TgUser where
  id : Int
  first_name : String
  last_name : Option String
deriving DecidableEq, Repr

/-- Telegram wire `Chat` (telegram.rs); `type` distinguishes private chats. -/
structure TgChat where
  id : Int
  type : String
deriving DecidableEq, Repr

/-- `MessageEntityBase` (telegram.rs): offset and length in UTF-16 code
units. -/
structure MessageEntityBase where
  offset : Nat
  length : Nat
deriving DecidableEq, Repr

/-- `MessageEntity` (telegram.rs): mention-by-name, mention-by-id (text
mention, carrying the user), or any other entity kind (whose fields serde
discards). -/
inductive MessageEntity
  | Mention (base : MessageEntityBase)
  | TextMention (user : TgUser) (base : MessageEntityBase)
  | Other
deriving DecidableEq, Repr

/-- `MessageEntity::get_offset` (telegram.rs lines 435-440). -/
def MessageEntity.get_offset : MessageEntity → Nat
  | .Mention base => base.offset
  | .TextMention _ base => base.offset
  | .Other => 0

/-- `MessageEntity::get_length` (telegram.rs lines 442-447). -/
def MessageEntity.get_length : MessageEntity → Nat
  | .Mention base => base.length
  | .TextMention _ base => base.length
  | .Other => 0

/-- Decidable form of "a mention-by-name entity covers at least its leading
marker character", the in-range condition under which the source's slice
`offset+1 .. offset+length` does not panic. -/
def MessageEntity.mentionLenOk : MessageEntity → Bool
  | .Mention base => 1 ≤ base.length
  | _ => true

/-- The entity-match step of the `handle_update` loop (telegram.rs lines
86-103): what the loop's contents become after handling one entity — a
mention-by-name decodes the slice from offset+1 to offset+length and
resolves it against the adapter's own nickname, a mention-by-id mentions
the embedded user id, any other entity kind leaves the contents alone.  A
`String::from_utf16` failure is `none`. -/
def decodeEntityContents (selfUser : User) (u : List Nat) (e : MessageEntity)
    (c1 : List MessageContent) : Option (List MessageContent) :=
  match e with
  | .Mention _ =>
    match fromUtf16 (utf16Slice u (e.get_offset + 1) (e.get_offset + e.get_length)) with
    | none => none
    | some username =>
      some (if username = selfUser.getNickname then c1 ++ [.At selfUser]
            else c1 ++ [.At (User.new username)])
  | .TextMention tu _ => some (c1 ++ [.At (User.new (toString tu.id))])
  | .Other => some c1

/-- The entity loop of `handle_update` (telegram.rs lines 76-111): walk the
entities keeping a cursor `lastPos`, emit the decoded gap before each entity
when the cursor is strictly before the entity's offset, then the segment the
entity denotes, and finally the decoded suffix when the cursor is strictly
before the end.  Any `String::from_utf16` failure fails the whole update
(the `?` operator), modelled as `none`. -/
def decodeEntitiesLoop (selfUser : User) (u : List Nat) :
    List MessageEntity → Nat → List MessageContent → Option (List MessageContent)
  | [], lastPos, contents =>
    if lastPos < u.length then
      (fromUtf16 (utf16Slice u lastPos u.length)).map fun s => contents ++ [.Text s]
    else
      some contents
  | e :: rest, lastPos, contents =>
    match (if e.get_offset > lastPos then
        (fromUtf16 (utf16Slice u lastPos e.get_offset)).map fun s => contents ++ [.Text s]
      else
        some contents) with
    | none => none
    | some c1 =>
      match decodeEntityContents selfUser u e c1 with
      | none => none
      | some c2 => decodeEntitiesLoop selfUser u rest (e.get_offset + e.get_length) c2

/-- The inbound entity decode of `handle_update`, started at cursor 0 with
empty contents. -/
def telegramDecodeEntities (selfUser : User) (u : List Nat)
    (entities : List MessageEntity) : Option (List MessageContent) :=
  decodeEntitiesLoop selfUser u entities 0 []

/-- Telegram wire `Message` (telegram.rs). -/
structure TgMessage where
  message_id : Int
  mfrom : Option TgUser
  chat : Option TgChat
  text : Option String
  entities : Option (List MessageEntity)
deriving DecidableEq, Repr

/-- Telegram wire `Update` (telegram.rs). -/
structure Update where
  update_id : Int
  message : Option TgMessage
deriving DecidableEq, Repr

/-- Outcome of `handle_update`: an event pushed to the queue, a silently
ignored update (no message / no text), or a decode failure (the update is
dropped and the error logged by the spawned task). -/
inductive HandleOutcome (A : Type)
  | event (m : Message A)
  | ignored
  | failed
deriving DecidableEq, Repr

/-- `Telegram::handle_update` (telegram.rs lines 64-144): decode one update
into a platform-neutral message.  `self` is the adapter instance the chat's
`Arc` back-reference will hold. -/
def handleUpdate {A : Type} (self : A) (selfUser : User) (update : Update) :
    HandleOutcome A :=
  match update.message with
  | none => .ignored
  | some message =>
    match message.text with
    | none => .ignored
    | some text =>
      let utf16_text := utf16Encode text
      let contentsOpt : Option (List MessageContent) :=
        match message.entities with
        | some entities => telegramDecodeEntities selfUser utf16_text entities
        | none => some [.Text text]
      match contentsOpt with
      | none => .failed
      | some contents =>
        .event
          ⟨toString message.message_id,
           contents,
           match message.chat with
           | some chat =>
             if chat.type = "private" then
               Chat.mkPrivate self (User.new (toString chat.id))
             else
               Chat.mkGroup self (Group.new (toString chat.id))
           | none => Chat.mkPrivate self (User.new ""),
           match message.mfrom with
           | some f =>
             (User.new (toString f.id)).withNickname
               (f.first_name ++ (match f.last_name with
                 | some l => " " ++ l
                 | none => ""))
           | none => User.new ""⟩

/-- `GetUpdatesReq` (telegram.rs): the polling request body. -/
structure GetUpdatesReq where
  offset : Int
  timeout : Nat
deriving DecidableEq, Repr

/-- State of the polling loop in `run` (telegram.rs lines 178-240): either
still bootstrapping, or polling with the last acknowledged update id. -/
inductive PollState
  | bootstrap
  | polling (offset : Int)
deriving DecidableEq, Repr

/-- The request `run` issues in each state: the bootstrap call uses offset
-1 with a 1-second timeout (telegram.rs lines 183-190), the steady-state
call asks for updates from `offset + 1` with a 60-second timeout
(telegram.rs lines 209-216). -/
def pollRequest : PollState → GetUpdatesReq
  | .bootstrap => ⟨-1, 1⟩
  | .polling o => ⟨o + 1, 60⟩

/-- The offset-advance fold both loops of `run` perform over a batch
(telegram.rs lines 194-198 and 220-223). -/
def advanceOffset (o : Int) (updates : List Update) : Int :=
  updates.foldl (fun acc u => if u.update_id > acc then u.update_id else acc) o

/-- The messages a batch of updates dispatches: one spawned `handle_update`
task per update (telegram.rs lines 224-230); ignored and failed updates
produce nothing. -/
def processUpdates {A : Type} (self : A) (selfUser : User)
    (updates : List Update) : List (Message A) :=
  updates.filterMap fun u =>
    match handleUpdate self selfUser u with
    | .event m => some m
    | .ignored => none
    | .failed => none

/-- One iteration of `run` (telegram.rs lines 178-240): from the current
state and the transport result of the issued request (`none` = transport
failure, logged and retried after a fixed sleep), the next state and the
messages dispatched.  The bootstrap branch dispatches nothing. -/
def pollStep {A : Type} (self : A) (selfUser : User) :
    PollState → Option (List Update) → PollState × List (Message A)
  | .bootstrap, some updates => (.polling (advanceOffset 0 updates), [])
  | .bootstrap, none => (.bootstrap, [])
  | .polling o, some updates =>
    (.polling (advanceOffset o updates), processUpdates self selfUser updates)
  | .polling o, none => (.polling o, [])

/-- `ReplyParameters` (telegram.rs). -/
structure ReplyParameters where
  message_id : Int
deriving DecidableEq, Repr

/-- `SendMessageReq` (telegram.rs): the outbound request body. -/
structure SendMessageReq where
  chat_id : Int
  text : String
  entities : List MessageEntity
  reply_parameters : Option ReplyParameters
deriving DecidableEq, Repr

/-- The content loop of `send_msg_inner` (telegram.rs lines 253-291): build
the synthesized text, the entity list and the running UTF-16 code-unit
counter.  A mention whose user id fails `str::parse::<i64>` fails the whole
call (the `?` operator), modelled as `none`. -/
def sendBuildLoop : List MessageContent → String → List MessageEntity → Nat →
    Option (String × List MessageEntity)
  | [], text, entities, _ => some (text, entities)
  | .Text t :: rest, text, entities, offset =>
    sendBuildLoop rest (text ++ t) entities (offset + utf16Length t)
  | .At user :: rest, text, entities, offset =>
    let mention_text := "@" ++ user.nickname.getD user.id
    let mention_text_len := utf16Length mention_text
    match parseI64 user.id with
    | none => none
    | some uid =>
      sendBuildLoop rest (text ++ mention_text)
        (entities ++ [.TextMention ⟨uid, user.nickname.getD "", none⟩
          ⟨offset, mention_text_len⟩])
        (offset + mention_text_len)

/-- The reply-reference construction of `send_msg_inner` (telegram.rs lines
293-299): a `ReplyParameters` value exactly when a message is being replied
to, failing when that message's id does not parse as an i64. -/
def replyParamsOf {A : Type} : Option (Message A) → Option (Option ReplyParameters)
  | some m =>
    match parseI64 m.id with
    | none => none
    | some i => some (some ⟨i⟩)
  | none => some none

/-- The chat-id extraction of `send_msg_inner` (telegram.rs lines 301-314):
parse the id of the private peer or of the group. -/
def chatIdOf {A : Type} (chat : Chat A) : Option Int :=
  match chat.info with
  | .Private user => parseI64 user.id
  | .Group group => parseI64 group.id

/-- `Telegram::send_msg_inner` (telegram.rs lines 247-314) up to the network
call: the `sendMessage` request it assembles from the contents, the chat and
the optional message being replied to. -/
def buildSendMessageReq {A : Type} (contents : List MessageContent)
    (chat : Chat A) (replyTo : Option (Message A)) : Option SendMessageReq :=
  match sendBuildLoop contents "" [] 0 with
  | none => none
  | some (text, entities) =>
    match replyParamsOf replyTo with
    | none => none
    | some reply_parameters =>
      match chatIdOf chat with
      | none => none
      | some chat_id => some ⟨chat_id, text, entities, reply_parameters⟩

/-! ### Spec-side reference definitions (from the specification's words, not
from the code) -/

/-- Follows the spec's words (inbound, step 3 of the mention/entity decode
algorithm): the gap between the previous cursor and the entity's offset
becomes a Text segment, omitted when the gap is empty. -/
def specGapSegs (u : List Nat) (cursor offs : Nat) : Option (List MessageContent) :=
  if utf16Slice u cursor offs = [] then some []
  else (fromUtf16 (utf16Slice u cursor offs)).map fun s => [.Text s]

/-- Follows the spec's words (inbound, steps 4-5): a mention-by-name entity
decodes the slice from offset+1 to offset+length to a username and resolves
to the adapter's self identity when it case-sensitively equals the
adapter's own nickname, otherwise to a user whose id is that username; a
mention-by-id entity mentions a user built from the embedded numeric id. -/
def specMentionSegs (selfUser : User) (u : List Nat) :
    MessageEntity → Option (List MessageContent)
  | .Mention base =>
    (fromUtf16 (utf16Slice u (base.offset + 1) (base.offset + base.length))).map
      fun username =>
        if username = selfUser.getNickname then [.At selfUser]
        else [.At (User.new username)]
  | .TextMention tu _ => some [.At (User.new (toString tu.id))]
  | .Other => some []

/-- Follows the spec's words (inbound): segments are, per entity in order,
the gap Text segment then the entity's mention segment, and after the last
entity the remaining suffix as one final Text segment (omitted when
empty). -/
def specDecode (selfUser : User) (u : List Nat) :
    List MessageEntity → Nat → Option (List MessageContent)
  | [], cursor => specGapSegs u cursor u.length
  | e :: rest, cursor =>
    match specGapSegs u cursor e.get_offset with
    | none => none
    | some gap =>
      match specMentionSegs selfUser u e with
      | none => none
      | some ms =>
        match specDecode selfUser u rest (e.get_offset + e.get_length) with
        | none => none
        | some tail => some (gap ++ ms ++ tail)

/-- Follows the spec's words (outbound): the text each segment appends — a
Text segment verbatim, a Mention segment an at-sign followed by the
nickname if known, else the raw id. -/
def specOutPiece : MessageContent → String
  | .Text t => t
  | .At u => "@" ++ u.nickname.getD u.id

/-- Follows the spec's words (outbound): the synthesized text is the
pieces appended in order. -/
def specOutText : List MessageContent → String
  | [] => ""
  | c :: rest => specOutPiece c ++ specOutText rest

/-- Follows the spec's words (outbound): each Mention segment yields exactly
one mention-by-id entity whose offset is the running UTF-16 counter before
its piece is appended and whose length is its piece's UTF-16 code-unit
count; Text segments only advance the counter. -/
def specOutEntities : List MessageContent → Nat → Option (List MessageEntity)
  | [], _ => some []
  | .Text t :: rest, n => specOutEntities rest (n + utf16Length t)
  | .At u :: rest, n =>
    match parseI64 u.id with
    | none => none
    | some uid =>
      match specOutEntities rest (n + utf16Length (specOutPiece (.At u))) with
      | none => none
      | some es =>
        some (.TextMention ⟨uid, u.nickname.getD "", none⟩
          ⟨n, utf16Length (specOutPiece (.At u))⟩ :: es)

end Telegram

/-! ## OneBot 11 gateway adapter (src/api/onebot_11.rs) -/

namespace OneBot11

/-- `MessageSegment` (onebot_11.rs lines 300-323): the typed segment list of
the gateway wire schema, with every variant of the source enum. -/
inductive MessageSegment
  | Text (text : String)
  | Face (id : String)
  | Image (file : String)
  | Record (file : String)
  | Video (file : String)
  | At (qq : String)
  | Rps
  | Dice
  | Shake
  | Poke (type : String) (id : String)
  | Anonymous
  | Share (url : String) (title : String)
  | Contact (type : String) (id : String)
  | Location (lat : String) (lon : String)
  | Music (type : String)
  | Reply (id : String)
  | Forward (id : String)
  | Node
  | Xml (data : String)
  | Json (data : String)
deriving DecidableEq, Repr

/-- The segment loop of `handle_ws_msg` (onebot_11.rs lines 90-100): a Text
segment appends its text, an At segment appends a mention of the referenced
user, every other segment kind is skipped. -/
def translateSegments : List MessageSegment → List MessageContent → List MessageContent
  | [], contents => contents
  | .Text t :: rest, contents => translateSegments rest (contents ++ [.Text t])
  | .At qq :: rest, contents => translateSegments rest (contents ++ [.At (User.new qq)])
  | _ :: rest, contents => translateSegments rest contents

/-- Follows the spec's words (gateway inbound translation): each Text
segment contributes its text as message content, each at segment a Mention
of the referenced user, and any other segment kind nothing. -/
def specSegToContent : MessageSegment → Option MessageContent
  | .Text t => some (.Text t)
  | .At qq => some (.At (User.new qq))
  | _ => none

/-- `MessageType` (onebot_11.rs). -/
inductive ObMessageType
  | Private
  | Group
deriving DecidableEq, Repr

/-- The fields of a decoded `Event::Message` frame (onebot_11.rs lines
325-338), after JSON deserialization. -/
structure ObMessageEvent where
  message_id : Int
  message_type : ObMessageType
  group_id : Option Int
  user_id : Int
  message : List MessageSegment
  sender_nickname : String
deriving DecidableEq, Repr

/-- `OneBot11::handle_ws_msg` (onebot_11.rs lines 68-123) on a decoded
message event: translate the segments, build the sender, and attach the chat
referencing this adapter instance (`self.clone()`).  A group event without a
group id fails (the `context("no group id")?`), modelled as `none`. -/
def handleMessageEvent {A : Type} (self : A) (ev : ObMessageEvent) :
    Option (Message A) :=
  let contents := translateSegments ev.message []
  let sender := (User.new (toString ev.user_id)).withNickname ev.sender_nickname
  match ev.message_type with
  | .Private =>
    some ⟨toString ev.message_id, contents, Chat.mkPrivate self sender, sender⟩
  | .Group =>
    match ev.group_id with
    | none => none
    | some gid =>
      some ⟨toString ev.message_id, contents,
        Chat.mkGroup self (Group.new (toString gid)), sender⟩

/-- `GroupMemberInfoRole` (onebot_11.rs lines 389-394). -/
inductive GroupMemberInfoRole
  | Owner
  | Admin
  | Member
deriving DecidableEq, BEq, Repr

/-- `GetGroupMemberInfoData` (onebot_11.rs). -/
structure GetGroupMemberInfoData where
  role : GroupMemberInfoRole
deriving DecidableEq, Repr

/-- The role mapping of `OneBot11::is_group_admin` (onebot_11.rs line 250):
the answer computed from the member-info response. -/
def isGroupAdminFromResp (resp : GetGroupMemberInfoData) : Bool :=
  resp.role == GroupMemberInfoRole.Owner || resp.role == GroupMemberInfoRole.Admin

/-- The fixed reconnect delay of `run` (onebot_11.rs line 166):
`Duration::from_secs(3)`. -/
def reconnectDelaySecs : Nat := 3

/-- How one iteration of the `run` loop (onebot_11.rs lines 157-180) ends:
either the connection attempt failed, or a connection was established and
its event stream yielded the given frames before terminating. -/
inductive WsIter (F : Type)
  | connectFailed
  | connected (frames : List F)
deriving DecidableEq, Repr

/-- The seconds `run` sleeps before the next connection attempt: 3 after a
failed connect (onebot_11.rs line 166), and none at all after an
established stream terminates (the inner `while` simply falls through to
the outer `loop`). -/
def iterDelaySecs {F : Type} : WsIter F → Nat
  | .connectFailed => reconnectDelaySecs
  | .connected _ => 0

/-- The trace of the unbounded `run` loop over a sequence of connection
outcomes: for each iteration, the delay before the next attempt and the
messages delivered (one spawned `handle_ws_msg` per frame; frames that fail
to decode deliver nothing). -/
def runTrace {A : Type} (self : A) (iters : List (WsIter ObMessageEvent)) :
    List (Nat × List (Message A)) :=
  iters.map fun it =>
    match it with
    | .connectFailed => (reconnectDelaySecs, [])
    | .connected frames => (0, frames.filterMap (handleMessageEvent self))

end OneBot11

/-! ## CLI adapter (src/api/cli.rs) -/

namespace Cli

/-- Rust `str::match_indices` with a nonempty pattern, over characters: the
start positions of the non-overlapping matches, scanned left to right.  (The
source indexes bytes; at the match boundaries the source slices at, byte and
character positions are order-isomorphic, so character positions model
them faithfully.) -/
def matchIndicesGo (pat : List Char) : List Char → Nat → List Nat
  | [], _ => []
  | c :: rest, i =>
    if 1 ≤ pat.length ∧ pat.isPrefixOf (c :: rest) then
      i :: matchIndicesGo pat (rest.drop (pat.length - 1)) (i + pat.length)
    else
      matchIndicesGo pat rest (i + 1)
termination_by l _ => l.length
decreasing_by
  · simp only [List.length_drop, List.length_cons]
    omega
  · simp only [List.length_cons]
    omega

/-- `line.match_indices(&be_at_text)` (cli.rs). -/
def matchIndices (line pat : List Char) : List Nat :=
  matchIndicesGo pat line 0

/-- The position loop of `handle_line` (cli.rs): before each match emit the
preceding text when nonempty, then a mention of the adapter's own user, and
advance the cursor past the matched marker.  (The source appends no
trailing text after the last match.) -/
def contentsLoop (selfId : String) (line : List Char) (beAtLen : Nat) :
    List Nat → Nat → List MessageContent → List MessageContent
  | [], _, contents => contents
  | pos :: rest, lastPos, contents =>
    let contents :=
      if pos > lastPos then
        contents ++ [.Text ⟨(line.drop lastPos).take (pos - lastPos)⟩]
      else contents
    contentsLoop selfId line beAtLen rest (pos + beAtLen)
      (contents ++ [.At (User.new selfId)])

/-- `Cli::handle_line` (cli.rs): parse self-mentions out of the line and
build the message; its chat is a private chat referencing this adapter
instance (`self.clone()`).  The sender identity (process uid and username)
and the timestamp id are environment inputs, passed as parameters. -/
def handleLine {A : Type} (self : A) (selfUser : User) (line : String)
    (senderUid senderName msgId : String) : Message A :=
  let beAt := "@" ++ selfUser.id ++ " "
  let positions := matchIndices line.data beAt.data
  let contents := contentsLoop selfUser.id line.data beAt.data.length positions 0 []
  let sender := (User.new senderUid).withNickname senderName
  ⟨msgId, contents, Chat.mkPrivate self sender, sender⟩

end Cli

/-! ## Mock adapter (src/api/mock.rs) -/

namespace Mock

/-- `Mock::simple_msg` (mock.rs): inject a message from the default test
sender; its chat is a private chat referencing this adapter instance
(`self.clone()`).  The generated uuid is an environment input, passed as
`msgId`. -/
def simpleMsg {A : Type} (self : A) (msgId : String)
    (contents : List MessageContent) : Message A :=
  let sender := (User.new "0").withNickname "tester"
  ⟨msgId, contents, Chat.mkPrivate self sender, sender⟩

end Mock

/-! ## Theorems -/

/-- C9: For every is_group_admin query on the gateway (OneBot11) adapter, a
member-info response whose role is owner or admin yields true, and a
response whose role is member yields false. -/
theorem onebot_admin_role_mapping :
    OneBot11.isGroupAdminFromResp ⟨OneBot11.GroupMemberInfoRole.Owner⟩ = true ∧
    OneBot11.isGroupAdminFromResp ⟨OneBot11.GroupMemberInfoRole.Admin⟩ = true ∧
    OneBot11.isGroupAdminFromResp ⟨OneBot11.GroupMemberInfoRole.Member⟩ = false := by
  decide

/-- C10: For every user and every private Chat, is_chat_admin returns
Ok(true) without invoking the owning adapter's group-admin query (the
result is the same for every oracle, so the query cannot have been
consulted), and for a group chat the result is exactly the owning
adapter's is_group_admin answer. -/
theorem chat_admin_private_no_query (A E : Type) (user other : User) (g : Group)
    (a : A) (oracle : A → User → Group → Except E Bool) :
    isChatAdmin user (Chat.mkPrivate a other) oracle = .ok true ∧
    isChatAdmin user (Chat.mkGroup a g) oracle = oracle a user g := by
  refine ⟨rfl, ?_⟩
  cases h : oracle a user g <;> simp [isChatAdmin, Chat.mkGroup, h]

/-- C8: For every inbound gateway frame in the segment-list schema, the
translation appends the text of each Text segment as message content, maps
each at segment to a Mention segment for the referenced user, and ignores
every other segment kind without failing the decode of that frame (the
translation is a total function equal to the spec's per-segment mapping). -/
theorem onebot_segment_translation (segs : List OneBot11.MessageSegment)
    (acc : List MessageContent) :
    OneBot11.translateSegments segs acc = acc ++ segs.filterMap OneBot11.specSegToContent := by
  induction segs generalizing acc with
  | nil => simp [OneBot11.translateSegments]
  | cons s rest ih =>
    cases s <;>
      simp [OneBot11.translateSegments, OneBot11.specSegToContent, List.filterMap_cons, ih]

/-- C7 counterexample: the claim says that after the termination of an
established WebSocket event stream the adapter waits the fixed delay before
retrying; in the code the inner frame loop falls through to the outer loop
and reconnects immediately, so the delay after a stream termination is 0,
not the fixed 3-second delay. -/
theorem onebot_stream_end_delay_cex :
    ¬ (OneBot11.iterDelaySecs
        (OneBot11.WsIter.connected ([] : List OneBot11.ObMessageEvent)) =
       OneBot11.reconnectDelaySecs) := by
  decide

/-- C7 (amended): after a failed connection attempt the adapter waits the
fixed 3-second delay and then retries connecting; after the termination of
an established event stream it retries immediately, with no delay.  Retries
are unbounded with no backoff growth (every iteration of the loop is
followed by another attempt), and event delivery resumes after reconnection
without restarting the runtime. -/
theorem onebot_reconnect_behaviour (A : Type) (self : A)
    (frames : List OneBot11.ObMessageEvent)
    (rest : List (OneBot11.WsIter OneBot11.ObMessageEvent)) :
    OneBot11.iterDelaySecs
        (OneBot11.WsIter.connectFailed : OneBot11.WsIter OneBot11.ObMessageEvent) =
      OneBot11.reconnectDelaySecs ∧
    OneBot11.iterDelaySecs (OneBot11.WsIter.connected frames) = 0 ∧
    (∀ iters : List (OneBot11.WsIter OneBot11.ObMessageEvent),
        (OneBot11.runTrace self iters).length = iters.length) ∧
    OneBot11.runTrace self
        (OneBot11.WsIter.connectFailed :: OneBot11.WsIter.connected frames :: rest) =
      (OneBot11.reconnectDelaySecs, []) ::
        (0, frames.filterMap (OneBot11.handleMessageEvent self)) ::
        OneBot11.runTrace self rest := by
  refine ⟨rfl, rfl, ?_, rfl⟩
  intro iters
  simp [OneBot11.runTrace]

/-- C4: At Telegram adapter startup, the bootstrap getUpdates call uses
offset -1 with a short (1-second) timeout; given pending updates with ids
10, 11 and 12 — each of which would decode to a message — the bootstrap
step advances the offset to 12 while dispatching none of them; the
subsequent polling request asks for updates from offset 13, i.e. strictly
after 12, with the long (60-second) timeout; and once polling, the loop
never returns to the bootstrap state, so the bootstrap call happens exactly
once. -/
theorem telegram_bootstrap_discards (A : Type) (self : A) (selfUser : User) :
    Telegram.pollRequest Telegram.PollState.bootstrap = ⟨-1, 1⟩ ∧
    Telegram.pollStep self selfUser Telegram.PollState.bootstrap
        (some [⟨10, some ⟨10, none, none, some "pending", none⟩⟩,
               ⟨11, some ⟨11, none, none, some "pending", none⟩⟩,
               ⟨12, some ⟨12, none, none, some "pending", none⟩⟩]) =
      (Telegram.PollState.polling 12, []) ∧
    (∃ m, Telegram.handleUpdate self selfUser
        ⟨10, some ⟨10, none, none, some "pending", none⟩⟩ =
          Telegram.HandleOutcome.event m) ∧
    (∃ m, Telegram.handleUpdate self selfUser
        ⟨11, some ⟨11, none, none, some "pending", none⟩⟩ =
          Telegram.HandleOutcome.event m) ∧
    (∃ m, Telegram.handleUpdate self selfUser
        ⟨12, some ⟨12, none, none, some "pending", none⟩⟩ =
          Telegram.HandleOutcome.event m) ∧
    Telegram.pollRequest (Telegram.PollState.polling 12) = ⟨12 + 1, 60⟩ ∧
    (∀ (o : Int) (r : Option (List Telegram.Update)), ∃ o2,
        (Telegram.pollStep self selfUser (Telegram.PollState.polling o) r).fst =
          Telegram.PollState.polling o2) := by
  refine ⟨rfl, ?_, ⟨_, rfl⟩, ⟨_, rfl⟩, ⟨_, rfl⟩, rfl, ?_⟩
  · show (Telegram.PollState.polling
        (Telegram.advanceOffset 0 _), ([] : List (Message A))) = _
    norm_num [Telegram.advanceOffset]
  · intro o r
    cases r with
    | none => exact ⟨o, rfl⟩
    | some us => exact ⟨Telegram.advanceOffset o us, rfl⟩

/-- C3: For the contents Text("a"), Mention(User id "5"), Text("b"),
rendering produces exactly "a", then the mention rendering, then "b"; and
feeding the wire form produced by the outbound reconstruction (the
synthesized text with its entity list) back through the inbound
entity-decode algorithm reproduces the same segment boundaries: Text "a",
one Mention of the user with id "5", and Text "b". -/
theorem telegram_roundtrip_text_mention_text :
    renderContents [MessageContent.Text "a", .At (User.new "5"), .Text "b"] =
      "a" ++ MessageContent.render (.At (User.new "5")) ++ "b" ∧
    ∃ req : Telegram.SendMessageReq,
      Telegram.buildSendMessageReq
          [MessageContent.Text "a", .At (User.new "5"), .Text "b"]
          (Chat.mkPrivate () (User.new "7")) none = some req ∧
      Telegram.telegramDecodeEntities ⟨"999", some "botnick"⟩
          (utf16Encode req.text) req.entities =
        some [MessageContent.Text "a", .At (User.new "5"), .Text "b"] := by
  refine ⟨by decide,
    ⟨⟨7, "a@5b", [.TextMention ⟨5, "", none⟩ ⟨1, 2⟩], none⟩, by decide, by decide⟩⟩

/-- Helper: the accumulator form of the outbound content loop agrees with
the spec-side text and entity computations, for every starting text, entity
list and counter value. -/
theorem sendBuildLoop_agrees (cs : List MessageContent) :
    ∀ (text : String) (entities : List Telegram.MessageEntity) (offset : Nat),
      Telegram.sendBuildLoop cs text entities offset =
        (Telegram.specOutEntities cs offset).map fun es =>
          (text ++ Telegram.specOutText cs, entities ++ es) := by
  induction cs with
  | nil =>
    intro text entities offset
    simp [Telegram.sendBuildLoop, Telegram.specOutEntities, Telegram.specOutText]
  | cons c rest ih =>
    intro text entities offset
    cases c with
    | Text t =>
      rw [Telegram.sendBuildLoop, ih]
      cases h : Telegram.specOutEntities rest (offset + utf16Length t) <;>
        simp [Telegram.specOutEntities, Telegram.specOutText, Telegram.specOutPiece, h,
          String.append_assoc]
    | At u =>
      cases hp : parseI64 u.id with
      | none =>
        simp [Telegram.sendBuildLoop, Telegram.specOutEntities, hp]
      | some uid =>
        rw [Telegram.sendBuildLoop]
        simp only [hp]
        rw [ih]
        cases h : Telegram.specOutEntities rest
            (offset + utf16Length (Telegram.specOutPiece (.At u))) <;>
          simp only [Telegram.specOutPiece] at h <;>
          simp [Telegram.specOutEntities, Telegram.specOutText, Telegram.specOutPiece, h,
            hp, String.append_assoc]

/-- C2: For every MessageContents, the outbound Telegram reconstruction
appends each Text segment verbatim and advances a running counter by its
UTF-16 code-unit length; for each Mention segment it appends an at-sign
followed by the user's nickname if known, else its raw id, and emits
exactly one mention-by-id entity whose offset equals the counter value
before the append and whose length equals the appended text's UTF-16
code-unit count (a surrogate-pair character counting as two units), then
advances the counter by that length — i.e. whenever the request builds, its
text and entities equal the spec-side computations; and a reply reference
is attached exactly when replying to a specific message. -/
theorem telegram_outbound_spec (A : Type) (contents : List MessageContent)
    (chat : Chat A) (replyTo : Option (Message A)) (req : Telegram.SendMessageReq)
    (h : Telegram.buildSendMessageReq contents chat replyTo = some req) :
    req.text = Telegram.specOutText contents ∧
    some req.entities = Telegram.specOutEntities contents 0 ∧
    (req.reply_parameters.isSome ↔ replyTo.isSome) := by
  unfold Telegram.buildSendMessageReq at h
  rw [sendBuildLoop_agrees] at h
  cases hse : Telegram.specOutEntities contents 0 with
  | none => rw [hse] at h; simp at h
  | some es =>
    rw [hse] at h
    simp only [Option.map_some', String.empty_append, List.nil_append] at h
    cases hr : Telegram.replyParamsOf replyTo with
    | none => rw [hr] at h; simp at h
    | some rp =>
      rw [hr] at h
      cases hc : Telegram.chatIdOf chat with
      | none => rw [hc] at h; simp at h
      | some cid =>
        rw [hc] at h
        simp only [Option.some.injEq] at h
        subst h
        refine ⟨rfl, by simp [hse], ?_⟩
        cases replyTo with
        | none =>
          simp only [Telegram.replyParamsOf, Option.some.injEq] at hr
          subst hr
          simp
        | some m =>
          simp only [Telegram.replyParamsOf] at hr
          cases hp : parseI64 m.id with
          | none => rw [hp] at hr; simp at hr
          | some i =>
            rw [hp] at hr
            simp only [Option.some.injEq] at hr
            subst hr
            simp

/-- C2 witness: the outbound theorem applied to the concrete contents
Text("😀") then Mention(User id "5") — the surrogate-pair emoji advances the
counter by two code units, so the emitted entity starts at offset 2 — with
a reply to message id "3" in the private chat with user "7". -/
theorem telegram_outbound_spec_witness :
    (⟨7, "😀@5", [Telegram.MessageEntity.TextMention ⟨5, "", none⟩ ⟨2, 2⟩],
        some ⟨3⟩⟩ : Telegram.SendMessageReq).text =
      Telegram.specOutText [MessageContent.Text "😀", .At (User.new "5")] ∧
    some (⟨7, "😀@5", [Telegram.MessageEntity.TextMention ⟨5, "", none⟩ ⟨2, 2⟩],
        some ⟨3⟩⟩ : Telegram.SendMessageReq).entities =
      Telegram.specOutEntities [MessageContent.Text "😀", .At (User.new "5")] 0 ∧
    ((⟨7, "😀@5", [Telegram.MessageEntity.TextMention ⟨5, "", none⟩ ⟨2, 2⟩],
        some ⟨3⟩⟩ : Telegram.SendMessageReq).reply_parameters.isSome ↔
      (some (⟨"3", [], Chat.mkPrivate () (User.new "7"), User.new "x"⟩ : Message Unit)).isSome) :=
  telegram_outbound_spec Unit [MessageContent.Text "😀", .At (User.new "5")]
    (Chat.mkPrivate () (User.new "7"))
    (some ⟨"3", [], Chat.mkPrivate () (User.new "7"), User.new "x"⟩)
    ⟨7, "😀@5", [Telegram.MessageEntity.TextMention ⟨5, "", none⟩ ⟨2, 2⟩], some ⟨3⟩⟩
    (by decide)

/-- Helper: a slice whose end is at or before its start is empty. -/
theorem utf16Slice_eq_nil_of_le (l : List Nat) (a b : Nat) (h : b ≤ a) :
    utf16Slice l a b = [] := by
  unfold utf16Slice
  have hz : b - a = 0 := Nat.sub_eq_zero_of_le h
  simp [hz]

/-- Helper: a slice starting at or past the end of the buffer is empty. -/
theorem utf16Slice_eq_nil_of_len_le (l : List Nat) (a b : Nat) (h : l.length ≤ a) :
    utf16Slice l a b = [] := by
  unfold utf16Slice
  have hd : l.drop a = [] := List.drop_eq_nil_of_le h
  simp [hd]

/-- Helper: a slice whose start is inside the buffer and strictly before its
end is nonempty. -/
theorem utf16Slice_ne_nil (l : List Nat) (a b : Nat) (ha : a < l.length)
    (hab : a < b) : utf16Slice l a b ≠ [] := by
  unfold utf16Slice
  intro hemp
  have hlen := congrArg List.length hemp
  simp only [List.length_take, List.length_drop, List.length_nil] at hlen
  omega

/-- Helper: the gap step of the decode loop agrees with the spec's gap
segments, relative to an accumulator, whenever the cursor and the offset
are within the buffer. -/
theorem gapStep_agrees (u : List Nat) (cursor offs : Nat)
    (acc : List MessageContent) (hc : cursor ≤ u.length) (ho : offs ≤ u.length) :
    (if offs > cursor then
        (fromUtf16 (utf16Slice u cursor offs)).map fun s => acc ++ [.Text s]
      else some acc) =
      (Telegram.specGapSegs u cursor offs).map fun g => acc ++ g := by
  by_cases hgap : offs > cursor
  · have hlt : cursor < u.length := by omega
    have hne := utf16Slice_ne_nil u cursor offs hlt hgap
    rw [if_pos hgap]
    unfold Telegram.specGapSegs
    rw [if_neg hne]
    cases hg : fromUtf16 (utf16Slice u cursor offs) <;> simp [hg]
  · have hnil := utf16Slice_eq_nil_of_le u cursor offs (by omega)
    rw [if_neg hgap]
    unfold Telegram.specGapSegs
    rw [if_pos hnil]
    simp

/-- Helper: the per-entity step of the decode loop agrees with the spec's
mention segments, relative to an accumulator. -/
theorem decodeEntityContents_agrees (selfUser : User) (u : List Nat)
    (e : Telegram.MessageEntity) (c1 : List MessageContent) :
    Telegram.decodeEntityContents selfUser u e c1 =
      (Telegram.specMentionSegs selfUser u e).map fun ms => c1 ++ ms := by
  cases e with
  | Mention base =>
    unfold Telegram.decodeEntityContents Telegram.specMentionSegs
    cases hm : fromUtf16 (utf16Slice u (base.offset + 1) (base.offset + base.length)) with
    | none => simp [Telegram.MessageEntity.get_offset, Telegram.MessageEntity.get_length, hm]
    | some username =>
      simp only [Telegram.MessageEntity.get_offset, Telegram.MessageEntity.get_length, hm,
        Option.map_some']
      by_cases hu : username = selfUser.getNickname <;> simp [hu]
  | TextMention tu base =>
    simp [Telegram.decodeEntityContents, Telegram.specMentionSegs]
  | Other =>
    simp [Telegram.decodeEntityContents, Telegram.specMentionSegs]

/-- Helper: the accumulator form of the inbound entity loop agrees with the
spec-side decode, for every cursor within the buffer, provided every entity
lies within the buffer. -/
theorem decodeEntitiesLoop_agrees (selfUser : User) (u : List Nat)
    (es : List Telegram.MessageEntity) :
    ∀ (cursor : Nat) (acc : List MessageContent),
      (∀ e ∈ es, e.get_offset + e.get_length ≤ u.length) →
      cursor ≤ u.length →
      Telegram.decodeEntitiesLoop selfUser u es cursor acc =
        (Telegram.specDecode selfUser u es cursor).map fun segs => acc ++ segs := by
  induction es with
  | nil =>
    intro cursor acc _ hc
    rw [Telegram.decodeEntitiesLoop, Telegram.specDecode]
    have := gapStep_agrees u cursor u.length acc hc (le_refl _)
    by_cases h : cursor < u.length
    · rw [if_pos (by omega : u.length > cursor)] at this
      rw [if_pos h, this]
    · rw [if_neg (by omega : ¬ u.length > cursor)] at this
      rw [if_neg h, this]
  | cons e rest ih =>
    intro cursor acc hb hc
    have hbe : e.get_offset + e.get_length ≤ u.length := hb e (List.mem_cons_self e rest)
    have hbr : ∀ x ∈ rest, x.get_offset + x.get_length ≤ u.length :=
      fun x hx => hb x (List.mem_cons_of_mem e hx)
    rw [Telegram.decodeEntitiesLoop, Telegram.specDecode,
      gapStep_agrees u cursor e.get_offset acc hc (by omega)]
    cases hgs : Telegram.specGapSegs u cursor e.get_offset with
    | none => simp
    | some gap =>
      simp only [Option.map_some']
      rw [decodeEntityContents_agrees]
      cases hms : Telegram.specMentionSegs selfUser u e with
      | none => simp
      | some ms =>
        simp only [Option.map_some']
        rw [ih (e.get_offset + e.get_length) ((acc ++ gap) ++ ms) hbr hbe]
        cases ht : Telegram.specDecode selfUser u rest (e.get_offset + e.get_length) with
        | none => simp
        | some tail => simp

/-- C1: For every Telegram message text arriving with an entity list of
mention entities — pre-sorted ascending by UTF-16 offset, lying within the
text, each mention-by-name covering at least its marker character — the
inbound decode produces exactly the spec's segment sequence: per entity the
decoded gap Text segment (omitted when empty), then for a mention-by-name
the self identity when the slice from offset+1 to offset+length equals the
adapter's own nickname and otherwise a User whose id is that username, for
a mention-by-id a Mention of the embedded numeric user id, and after the
last entity the remaining UTF-16 suffix as one final Text segment. -/
theorem telegram_inbound_decode_spec (selfUser : User) (text : String)
    (entities : List Telegram.MessageEntity)
    (hkind : ∀ e ∈ entities, e ≠ Telegram.MessageEntity.Other)
    (hlen : ∀ e ∈ entities, e.mentionLenOk = true)
    (hbounds : ∀ e ∈ entities,
      e.get_offset + e.get_length ≤ (utf16Encode text).length)
    (hsorted : entities.Chain' fun a b => a.get_offset ≤ b.get_offset) :
    Telegram.telegramDecodeEntities selfUser (utf16Encode text) entities =
      Telegram.specDecode selfUser (utf16Encode text) entities 0 := by
  rw [Telegram.telegramDecodeEntities,
    decodeEntitiesLoop_agrees selfUser (utf16Encode text) entities 0 [] hbounds
      (Nat.zero_le _)]
  cases Telegram.specDecode selfUser (utf16Encode text) entities 0 <;> simp

/-- C1 witness: the inbound decode theorem applied to the concrete text
"hi @mybot x" carrying a mention-by-name entity over "@mybot" (which
resolves to the adapter's self identity, nickname "mybot") and a
mention-by-id entity over "x" for user id 7. -/
theorem telegram_inbound_decode_spec_witness :
    Telegram.telegramDecodeEntities ⟨"42", some "mybot"⟩ (utf16Encode "hi @mybot x")
        [.Mention ⟨3, 6⟩, .TextMention ⟨7, "Bob", none⟩ ⟨10, 1⟩] =
      Telegram.specDecode ⟨"42", some "mybot"⟩ (utf16Encode "hi @mybot x")
        [.Mention ⟨3, 6⟩, .TextMention ⟨7, "Bob", none⟩ ⟨10, 1⟩] 0 :=
  telegram_inbound_decode_spec ⟨"42", some "mybot"⟩ "hi @mybot x"
    [.Mention ⟨3, 6⟩, .TextMention ⟨7, "Bob", none⟩ ⟨10, 1⟩]
    (by decide) (by decide) (by decide)
    (by simp [List.chain'_cons, List.chain'_singleton, Telegram.MessageEntity.get_offset])

/-- C6: If decoding any UTF-16 slice during Telegram entity parsing fails
(for example, an entity boundary splits a surrogate pair), only that single
update is dropped: the messages dispatched for a batch containing the
failing update are exactly those of the other updates, the polling state
still advances over the whole batch, and the polling loop keeps polling on
every subsequent batch. -/
theorem telegram_decode_failure_isolated (A : Type) (self : A) (selfUser : User)
    (o : Int) (pre post : List Telegram.Update) (u : Telegram.Update)
    (h : Telegram.handleUpdate self selfUser u = Telegram.HandleOutcome.failed) :
    Telegram.processUpdates self selfUser (pre ++ u :: post) =
      Telegram.processUpdates self selfUser pre ++
        Telegram.processUpdates self selfUser post ∧
    (Telegram.pollStep self selfUser (Telegram.PollState.polling o)
        (some (pre ++ u :: post))).fst =
      Telegram.PollState.polling (Telegram.advanceOffset o (pre ++ u :: post)) ∧
    (∀ (o2 : Int) (r : Option (List Telegram.Update)), ∃ o3,
        (Telegram.pollStep self selfUser (Telegram.PollState.polling o2) r).fst =
          Telegram.PollState.polling o3) := by
  refine ⟨?_, rfl, ?_⟩
  · simp [Telegram.processUpdates, List.filterMap_append, List.filterMap_cons, h]
  · intro o2 r
    cases r with
    | none => exact ⟨o2, rfl⟩
    | some us => exact ⟨Telegram.advanceOffset o2 us, rfl⟩

/-- C6 witness: the isolation theorem applied to a concrete batch whose
middle update carries the text "😀" with a mention-by-id entity starting at
UTF-16 offset 1 — inside the emoji's surrogate pair, so the gap slice fails
to decode — between two well-formed updates. -/
theorem telegram_decode_failure_isolated_witness :
    Telegram.processUpdates (7 : Nat) ⟨"42", some "mybot"⟩
        ([⟨1, some ⟨1, none, none, some "ok1", none⟩⟩] ++
          ⟨2, some ⟨2, none, none, some "😀",
            some [.TextMention ⟨3, "x", none⟩ ⟨1, 1⟩]⟩⟩ ::
          [⟨3, some ⟨3, none, none, some "ok2", none⟩⟩]) =
      Telegram.processUpdates (7 : Nat) ⟨"42", some "mybot"⟩
          [⟨1, some ⟨1, none, none, some "ok1", none⟩⟩] ++
        Telegram.processUpdates (7 : Nat) ⟨"42", some "mybot"⟩
          [⟨3, some ⟨3, none, none, some "ok2", none⟩⟩] :=
  (telegram_decode_failure_isolated Nat 7 ⟨"42", some "mybot"⟩ 0
    [⟨1, some ⟨1, none, none, some "ok1", none⟩⟩]
    [⟨3, some ⟨3, none, none, some "ok2", none⟩⟩]
    ⟨2, some ⟨2, none, none, some "😀", some [.TextMention ⟨3, "x", none⟩ ⟨1, 1⟩]⟩⟩
    (by decide)).1

/-- Helper: every message `handle_update` emits carries a chat whose
adapter reference is the handling adapter instance. -/
theorem telegram_handleUpdate_api (A : Type) (self : A) (selfUser : User)
    (u : Telegram.Update) (m : Message A)
    (h : Telegram.handleUpdate self selfUser u = Telegram.HandleOutcome.event m) :
    m.chat.api = self := by
  obtain ⟨uid, msg⟩ := u
  cases msg with
  | none => simp [Telegram.handleUpdate] at h
  | some message =>
    obtain ⟨mid, mfrom, mchat, mtext, ments⟩ := message
    cases mtext with
    | none => simp [Telegram.handleUpdate] at h
    | some text =>
      cases ments with
      | none =>
        simp only [Telegram.handleUpdate] at h
        cases h
        cases mchat with
        | none => rfl
        | some c =>
          by_cases hc : c.type = "private" <;>
            simp [hc, Chat.mkPrivate, Chat.mkGroup]
      | some entities =>
        cases hdec : Telegram.telegramDecodeEntities selfUser (utf16Encode text)
            entities with
        | none => simp [Telegram.handleUpdate, hdec] at h
        | some contents =>
          simp only [Telegram.handleUpdate, hdec] at h
          cases h
          cases mchat with
          | none => rfl
          | some c =>
            by_cases hc : c.type = "private" <;>
              simp [hc, Chat.mkPrivate, Chat.mkGroup]

/-- Helper: every message `handle_ws_msg` emits carries a chat whose
adapter reference is the handling adapter instance. -/
theorem onebot_handleMessageEvent_api (A : Type) (self : A)
    (ev : OneBot11.ObMessageEvent) (m : Message A)
    (h : OneBot11.handleMessageEvent self ev = some m) :
    m.chat.api = self := by
  obtain ⟨mid, mtype, gid, uidd, segs, nick⟩ := ev
  cases mtype with
  | Private =>
    simp only [OneBot11.handleMessageEvent] at h
    cases h
    rfl
  | Group =>
    cases gid with
    | none => simp [OneBot11.handleMessageEvent] at h
    | some g =>
      simp only [OneBot11.handleMessageEvent] at h
      cases h
      rfl

/-- C5: Every Message produced by any adapter — Telegram's handle_update,
OneBot11's handle_ws_msg, the CLI's handle_line, the Mock's simple_msg —
carries a Chat holding the reference to the exact adapter instance that
decoded it, and every send issued through that Chat and every reply issued
through that Message dispatches on that same adapter instance, never a
different one. -/
theorem chat_routes_to_decoding_adapter (A : Type) (self : A) (selfUser : User)
    (u : Telegram.Update) (mt : Message A)
    (ev : OneBot11.ObMessageEvent) (mo : Message A)
    (line senderUid senderName cliMsgId mockMsgId : String)
    (cs : List MessageContent)
    (ht : Telegram.handleUpdate self selfUser u = Telegram.HandleOutcome.event mt)
    (ho : OneBot11.handleMessageEvent self ev = some mo) :
    (mt.chat.api = self ∧ mt.chat.sendTarget = self ∧ mt.replyTarget = self) ∧
    (mo.chat.api = self ∧ mo.chat.sendTarget = self ∧ mo.replyTarget = self) ∧
    ((Cli.handleLine self selfUser line senderUid senderName cliMsgId).chat.api = self ∧
     (Cli.handleLine self selfUser line senderUid senderName cliMsgId).chat.sendTarget = self ∧
     (Cli.handleLine self selfUser line senderUid senderName cliMsgId).replyTarget = self) ∧
    ((Mock.simpleMsg self mockMsgId cs).chat.api = self ∧
     (Mock.simpleMsg self mockMsgId cs).chat.sendTarget = self ∧
     (Mock.simpleMsg self mockMsgId cs).replyTarget = self) := by
  have h1 := telegram_handleUpdate_api A self selfUser u mt ht
  have h2 := onebot_handleMessageEvent_api A self ev mo ho
  exact ⟨⟨h1, h1, h1⟩, ⟨h2, h2, h2⟩, ⟨rfl, rfl, rfl⟩, ⟨rfl, rfl, rfl⟩⟩

/-- C5 witness: the routing theorem applied to a concrete Telegram update
and a concrete OneBot11 private-message event handled by adapter instance 7,
extracting that the decoded Telegram message's chat references adapter 7. -/
theorem chat_routes_to_decoding_adapter_witness :
    ((⟨"5", [MessageContent.Text "yo"], Chat.mkPrivate 7 (User.new ""),
        User.new ""⟩ : Message Nat)).chat.api = 7 :=
  (chat_routes_to_decoding_adapter Nat 7 (User.new "bot")
    ⟨1, some ⟨5, none, none, some "yo", none⟩⟩
    ⟨"5", [MessageContent.Text "yo"], Chat.mkPrivate 7 (User.new ""), User.new ""⟩
    ⟨9, OneBot11.ObMessageType.Private, none, 3, [OneBot11.MessageSegment.Text "hey"],
      "nick"⟩
    ⟨"9", [MessageContent.Text "hey"],
      Chat.mkPrivate 7 ((User.new "3").withNickname "nick"),
      (User.new "3").withNickname "nick"⟩
    "l" "u" "n" "cid" "mid" [] (by decide) (by decide)).1.1

end Botmaid
